import Mathlib

/-!
Verification of the workflow orchestration core of the contract-ledger demo UI
(src/demo-ui/app.py). Python strings are embedded as List Char; Python dicts
as functions to Option; the filesystem as a function from path to Bool; the
outcome of one external process as an explicit value fed to each handler.
Each regular-expression search from the source is embedded as a leftmost-match
scan whose per-position matcher follows the corresponding pattern exactly.
-/

/-! ## Basic character and string helpers -/

/-- Python whitespace, as used by str.strip and by the regex class \s. -/
def isPySpace (c : Char) : Bool :=
  c == ' ' || c == '\t' || c == '\n' || c == '\r' || c == '\x0b' || c == '\x0c'

/-- Characters of the regex class [:\s] (a colon or whitespace). -/
def isSepChar (c : Char) : Bool := c == ':' || isPySpace c

/-- Word characters of the regex class \w restricted to ASCII. -/
def isWordChar (c : Char) : Bool := c.isAlphanum || c == '_'

/-- Characters of the regex class [A-Z0-9]. -/
def isUpperAlnum (c : Char) : Bool :=
  (decide ('A' ≤ c) && decide (c ≤ 'Z')) || c.isDigit

/-- Value of a decimal digit run, as Python int() of the captured group. -/
def digitsToNat (ds : List Char) : Nat :=
  ds.foldl (fun a c => a * 10 + (c.toNat - 48)) 0

/-- Lowercase every character, as Python str.lower on ASCII text. -/
def toLowerL (l : List Char) : List Char := l.map Char.toLower

/-- Python str.strip: remove leading and trailing whitespace. -/
def pyStrip (s : List Char) : List Char :=
  ((s.dropWhile isPySpace).reverse.dropWhile isPySpace).reverse

theorem pyStrip_nil : pyStrip [] = [] := rfl

/-- Case-insensitive literal match: if the pattern word is a prefix of the
text (ignoring case), return the remaining text. -/
def stripCI : List Char → List Char → Option (List Char)
  | [], r => some r
  | _ :: _, [] => none
  | p :: ps, c :: cs => if p.toLower = c.toLower then stripCI ps cs else none

/-- Python substring containment (needle in hay). -/
def containsSub (needle : List Char) : List Char → Bool
  | [] => needle.isEmpty
  | c :: cs => needle.isPrefixOf (c :: cs) || containsSub needle cs

/-! ## ExternalProcessRunner: run_command (app.py lines 78-108)

The outcome of subprocess.run is abstracted as a ProcResult: the process
completed with a return code and captured streams, or it exceeded the
120 second timeout, or spawning raised an exception. -/

inductive ProcResult where
  | completed (returncode : Int) (stdout stderr : List Char)
  | timeout
  | exn (msg : List Char)

structure CmdResult where
  success : Bool
  stdout : List Char
  stderr : List Char
  returncode : Int

/-- Embedding of run_command: success iff returncode == 0; on timeout the
fixed dictionary with empty stdout, the fixed stderr text and returncode -1;
on a spawn exception the exception text as stderr. -/
def run_command : ProcResult → CmdResult
  | .completed rc out err => ⟨rc == 0, out, err, rc⟩
  | .timeout => ⟨false, [], "Command timed out".toList, -1⟩
  | .exn msg => ⟨false, [], msg, -1⟩

/-! ## format_output (app.py lines 274-283) -/

/-- The separator inserted between stripped stdout and stripped stderr. -/
def sepLine : List Char := "\n\n--- Debug/Trace Output ---\n".toList

/-- Embedding of format_output: stdout is stripped when truthy, stderr is
stripped and appended after the separator when truthy, and when the stripped
stdout is empty the output is the stripped stderr alone. -/
def format_output (r : CmdResult) : List Char :=
  let output := if r.stdout ≠ [] then pyStrip r.stdout else []
  if r.stderr ≠ [] then
    let e := pyStrip r.stderr
    if output ≠ [] then output ++ sepLine ++ e else e
  else output

/-- Modelled from the spec sentence of C8 as amended: the deterministic join
of stdout and stderr, with stripping made explicit. -/
def joinedOutput (out err : List Char) : List Char :=
  if err = [] then (if out = [] then [] else pyStrip out)
  else if pyStrip out = [] then pyStrip err
  else pyStrip out ++ sepLine ++ pyStrip err

/-! ## ResultExtractor (app.py lines 349-368 and 510-529)

The six patterns are tried in order on the formatted output with
re.IGNORECASE; a match is accepted when the pattern is the final fallback or
the captured value is at least 10; the first accepted value is returned. -/

/-- Leftmost regex search: try the per-position matcher at every start
position from the left, including the position at end of text. -/
def searchPos {α : Type} (m : List Char → Option α) : List Char → Option α
  | [] => m []
  | c :: cs =>
    match m (c :: cs) with
    | some v => some v
    | none => searchPos m cs

/-- Group capture for the tail [:\s]+(\d+): one or more separator characters,
then a digit run. A shorter separator run cannot rescue a failed digit match,
so the greedy run is exact. -/
def sepsThenNum (r : List Char) : Option Nat :=
  let seps := r.takeWhile isSepChar
  let r2 := r.dropWhile isSepChar
  let ds := r2.takeWhile Char.isDigit
  if seps = [] then none
  else if ds = [] then none
  else some (digitsToNat ds)

/-- Per-position matcher for pattern 1, the regex dot (digits) dot cose:
a literal dot, a nonempty digit run, a literal dot, the word cose
(case-insensitive). Backtracking the greedy digit run cannot help because a
shortened run is followed by a digit, never by a dot. -/
def matchCoseAt : List Char → Option Nat
  | '.' :: r =>
    let ds := r.takeWhile Char.isDigit
    let r2 := r.dropWhile Char.isDigit
    if ds = [] then none
    else
      match r2 with
      | '.' :: r3 => if (stripCI "cose".toList r3).isSome then some (digitsToNat ds) else none
      | _ => none
  | _ => none

/-- Per-position matcher for pattern 2: the word sequence, optional
whitespace, an optional number or no, then separators and digits. The
backtracking alternatives of the Python engine collapse to three cases:
number after the whitespace, no after the whitespace, or no optional word at
all, in which case the separator run is taken from directly after sequence
(which absorbs every choice of how much whitespace the star consumes). -/
def matchSequenceAt (t : List Char) : Option Nat :=
  match stripCI "sequence".toList t with
  | none => none
  | some r =>
    let r1 := r.dropWhile isPySpace
    match (stripCI "number".toList r1).bind sepsThenNum with
    | some v => some v
    | none =>
      match (stripCI "no".toList r1).bind sepsThenNum with
      | some v => some v
      | none => sepsThenNum r

/-- Per-position matcher for pattern 3: the word entry, separators, digits. -/
def matchEntryAt (t : List Char) : Option Nat :=
  (stripCI "entry".toList t).bind sepsThenNum

/-- Per-position matcher for pattern 4: the token seqno, separators, digits. -/
def matchSeqnoAt (t : List Char) : Option Nat :=
  (stripCI "seqno".toList t).bind sepsThenNum

/-- Scan for the lazy dot-star of pattern 5: advance to the first digit not
preceded by a newline (the dot class excludes the newline), then capture the
greedy digit run. -/
def scanToDigits : List Char → Option Nat
  | [] => none
  | c :: cs =>
    if c.isDigit then some (digitsToNat ((c :: cs).takeWhile Char.isDigit))
    else if c = '\n' then none
    else scanToDigits cs

/-- Per-position matcher for pattern 5: the word submitted, then lazily any
characters on the same line, then digits. -/
def matchSubmittedAt (t : List Char) : Option Nat :=
  (stripCI "submitted".toList t).bind scanToDigits

/-- Word-boundary test against the character on the far side (true at the
edges of the text). -/
def boundaryOk : Option Char → Bool
  | none => true
  | some c => !(isWordChar c)

/-- Leftmost search for pattern 6, the fallback: a word boundary, a digit run
of length at least 2, a word boundary. The previous character is threaded to
decide the leading boundary; only the greedy maximal run can match because a
shortened run places two word characters at the trailing boundary. -/
def fallbackAux : Option Char → List Char → Option Nat
  | _, [] => none
  | prev, c :: cs =>
    if boundaryOk prev && c.isDigit then
      let ds := (c :: cs).takeWhile Char.isDigit
      let rest := (c :: cs).dropWhile Char.isDigit
      if 2 ≤ ds.length && boundaryOk rest.head? then some (digitsToNat ds)
      else fallbackAux (some c) cs
    else fallbackAux (some c) cs

def fallbackSearch (t : List Char) : Option Nat := fallbackAux none t

/-- One extraction rule: its search function and whether it is the final
fallback (the Python loop tests the pattern literal for identity). -/
abbrev ExtractRule := (List Char → Option Nat) × Bool

/-- The six patterns of the register handlers, in source order. -/
def ruleChain : List ExtractRule :=
  [ (searchPos matchCoseAt, false),
    (searchPos matchSequenceAt, false),
    (searchPos matchEntryAt, false),
    (searchPos matchSeqnoAt, false),
    (searchPos matchSubmittedAt, false),
    (fallbackSearch, true) ]

/-- Embedding of the extraction loop: for each pattern in order, search; on a
match, accept and stop when the pattern is the fallback or the candidate is
at least 10, otherwise move to the next pattern; none when the loop ends. -/
def runRules : List ExtractRule → List Char → Option Nat
  | [], _ => none
  | r :: rs, t =>
    match r.1 t with
    | some v => if r.2 ∨ 10 ≤ v then some v else runRules rs t
    | none => runRules rs t

def extractSeqNo (t : List Char) : Option Nat := runRules ruleChain t

/-- Modelled from the spec sentence of C5: the first rule in priority order
that matches with an acceptable value determines the result. -/
def firstAcceptable : List ExtractRule → List Char → Option Nat
  | [], _ => none
  | r :: rs, t =>
    match (r.1 t).bind (fun v => if r.2 ∨ 10 ≤ v then some v else none) with
    | some v => some v
    | none => firstAcceptable rs t

/-! ## WorkflowSession (app.py lines 166-193)

The global sessions dictionary is a map from session id to session record;
a session record mirrors the dictionary built by create_session. -/

structure Session where
  created : String
  config : String → Option String
  scenario : Option String
  role : Option String
  contract_seq_no : Option Nat
  steps_completed : List String
  did_created_tdp : Bool
  did_created_tdc : Bool

abbrev SessionMap := String → Option Session

/-- The record stored by create_session for a fresh session id. -/
def initSession (created : String) : Session :=
  ⟨created, fun _ => none, none, none, none, [], false, false⟩

/-- Python dict.update semantics: a key supplied by the new mapping wins,
every other key keeps its old value. -/
def mergeConfig (old new : String → Option String) : String → Option String :=
  fun k => match new k with | some v => some v | none => old k

/-- The body of the update-config request: the config mapping under the
config key, and the scenario and role values (none when absent). -/
structure ConfigRequest where
  config : String → Option String
  scenario : Option String
  role : Option String

/-- Embedding of update_config: a missing session id yields a 404 and leaves
the map unchanged (second component false); otherwise the config mapping of
the session is updated with the supplied keys and the scenario and role
fields are overwritten with the supplied values. -/
def update_config (sessions : SessionMap) (sid : String) (req : ConfigRequest) :
    SessionMap × Bool :=
  match sessions sid with
  | none => (sessions, false)
  | some s =>
    (fun k => if k = sid then
        some { s with config := mergeConfig s.config req.config,
                      scenario := req.scenario, role := req.role }
      else sessions k, true)

/-! ## Register steps (app.py lines 336-374 and 497-535)

Each register handler runs its script, formats the output, extracts the
sequence number from the formatted output and returns it in the response.
The handler body never reads or writes the global sessions dictionary, so
the embedding passes the session map through unchanged. -/

structure RegisterResponse where
  success : Bool
  output : List Char
  sequence_number : Option Nat

def register_contract_tdp (sessions : SessionMap) (res : CmdResult) :
    SessionMap × RegisterResponse :=
  let output := format_output res
  (sessions, ⟨res.success, output, extractSeqNo output⟩)

def register_contract_tdc (sessions : SessionMap) (res : CmdResult) :
    SessionMap × RegisterResponse :=
  let output := format_output res
  (sessions, ⟨res.success, output, extractSeqNo output⟩)

/-! ## Precondition checks of the consumer steps (app.py lines 423-494)

The filesystem is a function from path to existence; the first component of
each result records whether the external script was run (spawned). -/

/-- The ledger entry artifact path built by both handlers. -/
def contractPath (n : Nat) : List Char :=
  "/tmp/contracts/2.".toList ++ (Nat.repr n).toList ++ ".cose".toList

/-- The identity document path for a username. -/
def didPath (u : List Char) : List Char :=
  "/tmp/".toList ++ u ++ "/did.json".toList

structure StepResponse where
  success : Bool
  output : List Char
  error : Option (List Char)
  status : Nat

/-- The 400 response for a missing or zero (falsy) sequence number. -/
def seqRequiredResp : StepResponse :=
  ⟨false, [], some "Sequence number required".toList, 400⟩

/-- The error text of sign-contract-tdc for a missing contract file. -/
def signMissingContractMsg (n : Nat) : List Char :=
  "Contract file not found: ".toList ++ contractPath n ++
    "\n\nPlease ensure you\x27ve retrieved the contract first (step 5.5).".toList

/-- The output text of sign-contract-tdc for a missing contract file. -/
def signMissingContractOut (n : Nat) : List Char :=
  "Error: Contract file 2.".toList ++ (Nat.repr n).toList ++
    ".cose not found in /tmp/contracts/\n\nMake sure you:\n1. Retrieved the contract with sequence number ".toList
    ++ (Nat.repr n).toList ++ "\n2. The retrieve step completed successfully".toList

/-- The error text of sign-contract-tdc for a missing identity document. -/
def signMissingDidMsg (u : List Char) : List Char :=
  "TDC DID not found: ".toList ++ didPath u ++
    "\n\nPlease create the TDC DID first (step 4).".toList

/-- The output text of sign-contract-tdc for a missing identity document. -/
def signMissingDidOut (u : List Char) : List Char :=
  "Error: DID file not found at ".toList ++ didPath u ++
    "\n\nMake sure you\x27ve created the DID for TDC in step 4.".toList

/-- True exactly for the request values Python treats as falsy here. -/
def seqFalsy : Option Nat → Bool
  | none => true
  | some n => n == 0

/-- Embedding of sign_contract_tdc: reject a falsy sequence number, then test
the contract artifact and the consumer identity document before running the
script; only the final branch spawns the external process. -/
def sign_contract_tdc (fs : List Char → Bool) (seq_no : Option Nat)
    (u : List Char) (run : CmdResult) : Bool × StepResponse :=
  if seqFalsy seq_no then (false, seqRequiredResp)
  else
    let n := seq_no.getD 0
    if fs (contractPath n) = false then
      (false, ⟨false, signMissingContractOut n, some (signMissingContractMsg n), 400⟩)
    else if fs (didPath u) = false then
      (false, ⟨false, signMissingDidOut u, some (signMissingDidMsg u), 400⟩)
    else (true, ⟨run.success, format_output run, none, 200⟩)

/-- The warning appended by retrieve_contract after a successful run whose
expected artifact is absent. -/
def retrieveWarning (n : Nat) : List Char :=
  "\n\nWarning: Expected contract file ".toList ++ contractPath n ++
    " was not found after retrieval.".toList

/-- Embedding of retrieve_contract: reject a falsy sequence number, otherwise
always run the script; when the run succeeds but the expected artifact is
absent, return failure with the warning appended to the formatted output. -/
def retrieve_contract (fs : List Char → Bool) (seq_no : Option Nat)
    (run : CmdResult) : Bool × StepResponse :=
  if seqFalsy seq_no then (false, seqRequiredResp)
  else
    let n := seq_no.getD 0
    if run.success = true ∧ fs (contractPath n) = false then
      (true, ⟨false, format_output run ++ retrieveWarning n, none, 200⟩)
    else (true, ⟨run.success, format_output run, none, 200⟩)

/-! ## Device authorization race (app.py lines 574-664)

The lines the child process makes available before the 2 second deadline are
the input list; an empty line stands for the end-of-stream read. The state
tracks the accumulated output, the captured code and whether the child is
still running; killing the child clears the running flag. -/

/-- Per-position matcher for the code pattern: four characters of [A-Z0-9],
a hyphen, four characters of [A-Z0-9] (no ignore-case flag on this search). -/
def matchOTAt : List Char → Option (List Char)
  | a :: b :: c :: d :: s :: e :: f :: g :: h :: _ =>
    if isUpperAlnum a && isUpperAlnum b && isUpperAlnum c && isUpperAlnum d
        && (s == '-')
        && isUpperAlnum e && isUpperAlnum f && isUpperAlnum g && isUpperAlnum h
    then some [a, b, c, d, '-', e, f, g, h]
    else none
  | _ => none

/-- Per-line inspection of the loop body: the code search runs only on lines
whose lowercase form contains one-time code or code followed by a colon. -/
def scanLine (line : List Char) : Option (List Char) :=
  if containsSub "one-time code".toList (toLowerL line)
      || containsSub "code:".toList (toLowerL line)
  then searchPos matchOTAt line
  else none

structure AuthState where
  outputLines : List (List Char)
  deviceCode : Option (List Char)
  processRunning : Bool

/-- The reading loop: an empty line ends the loop; every other line is
appended to the output buffer and inspected; on the first captured code the
process is killed and the loop ends. -/
def authLoop : AuthState → List (List Char) → AuthState
  | st, [] => st
  | st, line :: rest =>
    if line = [] then st
    else
      let st1 : AuthState := ⟨st.outputLines ++ [line], st.deviceCode, st.processRunning⟩
      match scanLine line with
      | some code => ⟨st1.outputLines, some code, false⟩
      | none => authLoop st1 rest

/-- The cleanup block after the loop: force-kill the child when its poll
still reports it running. -/
def cleanupKill (st : AuthState) : AuthState :=
  if st.processRunning then ⟨st.outputLines, st.deviceCode, false⟩ else st

/-- Embedding of github_login_device: run the reading loop from the initial
state, then the cleanup block. -/
def githubLoginDevice (lines : List (List Char)) : AuthState :=
  cleanupKill (authLoop ⟨[], none, true⟩ lines)

/-! ## GitHub logout (app.py lines 538-548) -/

structure SimpleResponse where
  success : Bool
  output : List Char

/-- Embedding of github_logout: the handler runs the logout command and then
returns the fixed response without inspecting the command result. -/
def github_logout (_r : CmdResult) : SimpleResponse :=
  ⟨true, "Logged out from GitHub CLI successfully.".toList⟩

/-! ## Theorems -/

/-- Shared lemma: when the leftmost match of the first pattern captures a
value of at least 10 the extraction chain returns it at once. -/
theorem runRules_cose_accept (t : List Char) (n : Nat)
    (hc : searchPos matchCoseAt t = some n) (hn : 10 ≤ n) :
    extractSeqNo t = some n := by
  simp [extractSeqNo, ruleChain, runRules, hc, hn]

/-- Shared lemma: the extraction loop computes the first rule in priority
order that matches with an acceptable value. -/
theorem runRules_eq_firstAcceptable (rs : List ExtractRule) (t : List Char) :
    runRules rs t = firstAcceptable rs t := by
  induction rs with
  | nil => rfl
  | cons r rs ih =>
    simp only [runRules, firstAcceptable]
    cases h : r.1 t with
    | none => simpa [h] using ih
    | some v =>
      by_cases hv : (r.2 = true ∨ 10 ≤ v)
      · simp [h, hv]
      · simp [h, hv, ih]

/-- Shared lemma: the priority chain yields nothing exactly when no rule
matches with an acceptable value. -/
theorem firstAcceptable_none_iff (rs : List ExtractRule) (t : List Char) :
    firstAcceptable rs t = none ↔
      ∀ r ∈ rs, ∀ v, r.1 t = some v → ¬(r.2 = true ∨ 10 ≤ v) := by
  induction rs with
  | nil => simp [firstAcceptable]
  | cons r rs ih =>
    rw [List.forall_mem_cons]
    cases h : r.1 t with
    | none =>
      have hL : firstAcceptable (r :: rs) t = firstAcceptable rs t := by
        simp [firstAcceptable, h]
      rw [hL, ih]
      constructor
      · intro h2
        refine ⟨?_, h2⟩
        intro v hv
        exact Option.noConfusion hv
      · exact fun h2 => h2.2
    | some v =>
      by_cases hv : (r.2 = true ∨ 10 ≤ v)
      · have hL : firstAcceptable (r :: rs) t = some v := by
          simp [firstAcceptable, h, hv]
        rw [hL]
        constructor
        · intro hx
          exact Option.noConfusion hx
        · intro h2
          exact absurd hv (h2.1 v rfl)
      · have hL : firstAcceptable (r :: rs) t = firstAcceptable rs t := by
          simp [firstAcceptable, h, hv]
        rw [hL, ih]
        constructor
        · intro h2
          refine ⟨?_, h2⟩
          intro vx hvx
          cases hvx
          exact hv
        · exact fun h2 => h2.2

/-- C1 counterexample: the text 1.2.cose contains a substring of the form
k dot n dot cose with n equal to 2, the first pattern captures 2, yet the
extraction returns nothing because the captured value is below 10 — the
claim that the value is always accepted regardless of magnitude fails. -/
theorem extract_cose_small_rejected :
    searchPos matchCoseAt ("1.2.cose".toList) = some 2 ∧
      extractSeqNo ("1.2.cose".toList) = none := by
  constructor <;> decide

/-- C1 (amended): for every text whose leftmost match of the pattern dot
digits dot cose captures a value of at least 10, the register-step
extraction returns that value, regardless of any other numbers in the text;
a captured value below 10 is rejected by the same guard as rules 2 to 5. -/
theorem extract_cose_first_ge10 (t : List Char) (n : Nat)
    (hc : searchPos matchCoseAt t = some n) (hn : 10 ≤ n) :
    extractSeqNo t = some n :=
  runRules_cose_accept t n hc hn

/-- C1 witness: the amended theorem at a concrete text holding both a ledger
filename and other numbers. -/
theorem extract_cose_first_ge10_witness :
    extractSeqNo ("prior version 2, wrote entry 2.26.cose now".toList) = some 26 :=
  extract_cose_first_ge10 ("prior version 2, wrote entry 2.26.cose now".toList) 26
    (by decide) (by decide)

/-- C4: on timeout run_command returns success false, exit code -1, the
fixed stderr text Command timed out, and empty stdout. -/
theorem run_command_timeout_result :
    run_command ProcResult.timeout =
      ⟨false, [], "Command timed out".toList, -1⟩ := rfl

/-- C5: the extraction rules are evaluated in fixed priority order — the
result is that of the first rule that matches with an acceptable value
(acceptable means: the rule is the final fallback, which always accepts, or
the captured value is at least 10, the guard of rules 1 to 5), later rules
are never consulted, and the result is none exactly when no rule matches
with an acceptable value. -/
theorem extract_priority_chain_spec (t : List Char) :
    extractSeqNo t = firstAcceptable ruleChain t ∧
      (extractSeqNo t = none ↔
        ∀ r ∈ ruleChain, ∀ v, r.1 t = some v → ¬(r.2 = true ∨ 10 ≤ v)) := by
  refine ⟨runRules_eq_firstAcceptable ruleChain t, ?_⟩
  rw [show extractSeqNo t = firstAcceptable ruleChain t from
    runRules_eq_firstAcceptable ruleChain t]
  exact firstAcceptable_none_iff ruleChain t

/-- Concrete session map and register-step result for the C2 counterexample. -/
def regSessions : SessionMap := fun _ => some (initSession "t0")

def regResult : CmdResult :=
  ⟨true, "Submitted to ledger, see 2.26.cose".toList, [], 0⟩

/-- C2 counterexample: the register step extracts 26 from an output holding
2.26.cose, yet the session map it returns is the input map unchanged and the
sequenceNumber field of the stored session is still unset — the handler body
never writes the session record. -/
theorem register_no_session_update_cex :
    (register_contract_tdp regSessions regResult).2.sequence_number = some 26 ∧
      (register_contract_tdp regSessions regResult).1 = regSessions ∧
      (initSession "t0").contract_seq_no = none := by
  refine ⟨by decide, rfl, rfl⟩

/-- C2 (amended): a register step whose formatted output yields an extracted
sequence number returns that number in the sequence_number field of its
response, and leaves every stored session record unchanged (in particular
the sequenceNumber field of the session keeps its prior value). -/
theorem register_seq_response_frame (sessions : SessionMap) (sid : String)
    (s : Session) (res : CmdResult) (n : Nat)
    (hs : sessions sid = some s)
    (hc : searchPos matchCoseAt (format_output res) = some n)
    (hn : 10 ≤ n) :
    (register_contract_tdp sessions res).2.sequence_number = some n ∧
      (register_contract_tdp sessions res).1 sid = some s :=
  ⟨runRules_cose_accept (format_output res) n hc hn, hs⟩

def w2Session : Session := initSession "t1"

def w2Sessions : SessionMap := fun _ => some w2Session

def w2Result : CmdResult :=
  ⟨true, "Contract registered at ledger entry 2.31.cose".toList, [], 0⟩

/-- C2 witness: the amended theorem at a concrete session map and result. -/
theorem register_seq_response_frame_witness :
    (register_contract_tdp w2Sessions w2Result).2.sequence_number = some 31 ∧
      (register_contract_tdp w2Sessions w2Result).1 "abc" = some w2Session :=
  register_seq_response_frame w2Sessions "abc" w2Session w2Result 31 rfl
    (by decide) (by decide)

/-- A filesystem in which no artifact exists. -/
def emptyFs : List Char → Bool := fun _ => false

def retrieveRun : CmdResult := ⟨true, "retrieval reported OK".toList, [], 0⟩

/-- C3 counterexample: for the retrieve step with sequence number 26 and the
ledger entry 2.26.cose absent, the external script is spawned anyway — the
missing-artifact failure of retrieve is not surfaced before the process is
spawned but only checked afterwards. -/
theorem retrieve_spawns_despite_missing_cex :
    emptyFs (contractPath 26) = false ∧
      (retrieve_contract emptyFs (some 26) retrieveRun).1 = true ∧
      (retrieve_contract emptyFs (some 26) retrieveRun).2.success = false := by
  refine ⟨rfl, ?_, ?_⟩ <;> decide

/-- C3 (amended): for sign(consumer) a missing required artifact (the ledger
entry or the consumer identity document) is surfaced before any process is
spawned with a message naming the missing artifact (the messages also name
the producing steps); for retrieve(consumer) the script always runs, and
only after a successful run is the absent expected artifact reported, with
the artifact named in the appended warning. -/
theorem artifact_gate_sign_retrieve (fs : List Char → Bool) (n : Nat)
    (u : List Char) (run : CmdResult) (hn : n ≠ 0) :
    (fs (contractPath n) = false →
      (sign_contract_tdc fs (some n) u run).1 = false ∧
      ∃ pre post, (sign_contract_tdc fs (some n) u run).2.error
        = some (pre ++ contractPath n ++ post)) ∧
    (fs (contractPath n) = true → fs (didPath u) = false →
      (sign_contract_tdc fs (some n) u run).1 = false ∧
      ∃ pre post, (sign_contract_tdc fs (some n) u run).2.error
        = some (pre ++ didPath u ++ post)) ∧
    (run.success = true → fs (contractPath n) = false →
      (retrieve_contract fs (some n) run).1 = true ∧
      (retrieve_contract fs (some n) run).2.success = false ∧
      ∃ pre post, (retrieve_contract fs (some n) run).2.output
        = pre ++ contractPath n ++ post) := by
  have hfal : seqFalsy (some n) = false := by
    simp [seqFalsy, hn]
  refine ⟨?_, ?_, ?_⟩
  · intro hfc
    constructor
    · simp [sign_contract_tdc, hfal, hfc]
    · refine ⟨"Contract file not found: ".toList,
        "\n\nPlease ensure you\x27ve retrieved the contract first (step 5.5).".toList, ?_⟩
      simp [sign_contract_tdc, hfal, hfc, signMissingContractMsg]
  · intro hfc hfd
    constructor
    · simp [sign_contract_tdc, hfal, hfc, hfd]
    · refine ⟨"TDC DID not found: ".toList,
        "\n\nPlease create the TDC DID first (step 4).".toList, ?_⟩
      simp [sign_contract_tdc, hfal, hfc, hfd, signMissingDidMsg]
  · intro hrs hfc
    refine ⟨?_, ?_, ?_⟩
    · simp [retrieve_contract, hfal, hrs, hfc]
    · simp [retrieve_contract, hfal, hrs, hfc]
    · refine ⟨format_output run ++ "\n\nWarning: Expected contract file ".toList,
        " was not found after retrieval.".toList, ?_⟩
      simp [retrieve_contract, hfal, hrs, hfc, retrieveWarning]

def w3Run : CmdResult := ⟨false, [], "boom".toList, 2⟩

/-- C3 witness: the amended theorem at sequence number 26, username alice,
the empty filesystem and a failing run result. -/
theorem artifact_gate_sign_retrieve_witness :
    (emptyFs (contractPath 26) = false →
      (sign_contract_tdc emptyFs (some 26) "alice".toList w3Run).1 = false ∧
      ∃ pre post, (sign_contract_tdc emptyFs (some 26) "alice".toList w3Run).2.error
        = some (pre ++ contractPath 26 ++ post)) ∧
    (emptyFs (contractPath 26) = true → emptyFs (didPath "alice".toList) = false →
      (sign_contract_tdc emptyFs (some 26) "alice".toList w3Run).1 = false ∧
      ∃ pre post, (sign_contract_tdc emptyFs (some 26) "alice".toList w3Run).2.error
        = some (pre ++ didPath "alice".toList ++ post)) ∧
    (w3Run.success = true → emptyFs (contractPath 26) = false →
      (retrieve_contract emptyFs (some 26) w3Run).1 = true ∧
      (retrieve_contract emptyFs (some 26) w3Run).2.success = false ∧
      ∃ pre post, (retrieve_contract emptyFs (some 26) w3Run).2.output
        = pre ++ contractPath 26 ++ post) :=
  artifact_gate_sign_retrieve emptyFs 26 "alice".toList w3Run (by decide)

def untriggeredLine : List Char := "ABCD-1234".toList

/-- C6 counterexample: a line consisting of a valid one-time code matches
the code pattern, yet the routine returns no code because the line lacks the
trigger phrases — not every line read is scanned for the code pattern. -/
theorem device_code_untriggered_line_cex :
    searchPos matchOTAt untriggeredLine = some "ABCD-1234".toList ∧
      (githubLoginDevice [untriggeredLine]).deviceCode = none := by
  constructor <;> decide

/-- Shared lemma: the reading loop returns the code scanned out of the first
line on which the per-line inspection succeeds. -/
theorem authLoop_finds (st : AuthState) (pre : List (List Char))
    (line : List Char) (post : List (List Char)) (code : List Char)
    (hpre : ∀ l ∈ pre, l ≠ [] ∧ scanLine l = none)
    (hline : line ≠ []) (hscan : scanLine line = some code) :
    (authLoop st (pre ++ line :: post)).deviceCode = some code := by
  induction pre generalizing st with
  | nil =>
    simp only [List.nil_append, authLoop]
    rw [if_neg hline, hscan]
  | cons l ls ih =>
    obtain ⟨hl, hsl⟩ := hpre l (by simp)
    simp only [List.cons_append, authLoop]
    rw [if_neg hl, hsl]
    exact ih _ (fun x hx => hpre x (by simp [hx]))

/-- C6 (amended): among the lines read before the deadline, exactly those
whose lowercase form contains one-time code or code followed by a colon are
scanned for the code pattern; on the first such line with a match the
routine returns exactly the matched code (scanLine embeds both the trigger
test and the pattern search of the loop body). -/
theorem device_code_trigger_first (pre : List (List Char)) (line : List Char)
    (post : List (List Char)) (code : List Char)
    (hpre : ∀ l ∈ pre, l ≠ [] ∧ scanLine l = none)
    (hline : line ≠ []) (hscan : scanLine line = some code) :
    (githubLoginDevice (pre ++ line :: post)).deviceCode = some code := by
  have h := authLoop_finds ⟨[], none, true⟩ pre line post code hpre hline hscan
  unfold githubLoginDevice cleanupKill
  split
  · exact h
  · exact h

def wAuthLine1 : List Char := "Starting GitHub device flow".toList

def wAuthLine2 : List Char := "! First copy your one-time code: ABCD-1234".toList

/-- C6 witness: the amended theorem on a two-line transcript whose second
line carries the trigger phrase and the code. -/
theorem device_code_trigger_first_witness :
    (githubLoginDevice ([wAuthLine1] ++ wAuthLine2 :: [])).deviceCode
      = some "ABCD-1234".toList :=
  device_code_trigger_first [wAuthLine1] wAuthLine2 [] "ABCD-1234".toList
    (by decide) (by decide) (by decide)

/-- C7: after the device-authorization routine returns, the child process is
not left running, in either terminal outcome: on a captured code it was
killed inside the loop, and otherwise the cleanup block force-kills it (the
embedding models a kill as effective termination of the child). -/
theorem device_auth_process_terminated (lines : List (List Char)) :
    (githubLoginDevice lines).processRunning = false := by
  unfold githubLoginDevice cleanupKill
  split
  · rfl
  · rename_i hrun
    simpa using hrun

def fmtCex : CmdResult := ⟨true, " a".toList, [], 0⟩

/-- C8 counterexample: with stderr empty the claim forces the formatted
output to equal stdout, but the code strips whitespace: for stdout equal to
a space followed by the letter a, the formatted output is the letter a
alone. -/
theorem format_output_strips_cex :
    format_output fmtCex = "a".toList ∧
      format_output fmtCex ≠ fmtCex.stdout := by
  constructor <;> decide

/-- C8 (amended): the formatted output equals the stripped stdout, with the
separator and the stripped stderr appended only if stderr is non-empty (and
the separator omitted when the stripped stdout is empty); it is a
deterministic function of stdout and stderr alone, as joinedOutput is. -/
theorem format_output_join_spec (r : CmdResult) :
    format_output r = joinedOutput r.stdout r.stderr := by
  unfold format_output joinedOutput
  by_cases h1 : r.stdout = [] <;> by_cases h2 : r.stderr = [] <;>
    by_cases h3 : pyStrip r.stdout = [] <;>
    simp [h1, h2, h3, pyStrip_nil]

/-- C9: the GitHub logout handler returns success true with the fixed
message, whatever the result of the underlying logout command was. -/
theorem github_logout_always_success (r : CmdResult) :
    github_logout r =
      ⟨true, "Logged out from GitHub CLI successfully.".toList⟩ := rfl

/-- C10: updating the configuration of an existing session merges the
supplied config keys into the stored config mapping (keys not supplied keep
their old values), unconditionally overwrites the scenario and role fields
with the supplied values (none when absent from the request), and leaves the
creation time, sequence number, completed steps and DID-created flags
unchanged. -/
theorem update_config_merge_overwrite_frame (sessions : SessionMap)
    (sid : String) (req : ConfigRequest) (s : Session)
    (hs : sessions sid = some s) :
    ∃ s2, (update_config sessions sid req).1 sid = some s2 ∧
      (∀ k, s2.config k =
        match req.config k with | some v => some v | none => s.config k) ∧
      s2.scenario = req.scenario ∧ s2.role = req.role ∧
      s2.created = s.created ∧ s2.contract_seq_no = s.contract_seq_no ∧
      s2.steps_completed = s.steps_completed ∧
      s2.did_created_tdp = s.did_created_tdp ∧
      s2.did_created_tdc = s.did_created_tdc := by
  refine ⟨{ s with
      config := mergeConfig s.config req.config
      scenario := req.scenario
      role := req.role },
    ?_, fun k => rfl, rfl, rfl, rfl, rfl, rfl, rfl, rfl⟩
  unfold update_config
  rw [hs]
  simp

def w10Session : Session :=
  ⟨"t2", fun k => if k = "TDP_USERNAME" then some "alice" else none,
    some "brats", some "data-provider", some 5, ["install-cli"], true, false⟩

def w10Sessions : SessionMap := fun _ => some w10Session

def w10Req : ConfigRequest :=
  ⟨fun k => if k = "TDC_USERNAME" then some "bob" else none, none, none⟩

/-- C10 witness: the theorem at a concrete populated session and a request
that supplies one config key and omits scenario and role. -/
theorem update_config_merge_overwrite_frame_witness :
    ∃ s2, (update_config w10Sessions "s1" w10Req).1 "s1" = some s2 ∧
      (∀ k, s2.config k =
        match w10Req.config k with
        | some v => some v | none => w10Session.config k) ∧
      s2.scenario = w10Req.scenario ∧ s2.role = w10Req.role ∧
      s2.created = w10Session.created ∧
      s2.contract_seq_no = w10Session.contract_seq_no ∧
      s2.steps_completed = w10Session.steps_completed ∧
      s2.did_created_tdp = w10Session.did_created_tdp ∧
      s2.did_created_tdc = w10Session.did_created_tdc :=
  update_config_merge_overwrite_frame w10Sessions "s1" w10Req w10Session rfl
